import Mathlib

/-!
Verification of the Scoundrel rule engine (`src/main.rs`).

The game core - the card model, deck builder, room manager, combat resolver,
turn controller, scoring and event log - is embedded shallowly below.  Pure
Rust methods become Lean functions on an explicit `GameState` record; the two
operations that can panic in Rust (`Vec::remove` on a bad index, `.unwrap()`
on a missing weapon) return `Option GameState`, with `none` marking the
panic.  The deck shuffle is modelled as an arbitrary permutation of the
fixed 44-card multiset, carried as a hypothesis of the reachability
relation.  The key dispatch of `run_app` is embedded as `applyCmd`, one
constructor per key handled on each screen.
-/

namespace Scoundrel

/-- The four suits (`enum Suit` in the source). -/
inductive Suit where
  | spades
  | clubs
  | hearts
  | diamonds
deriving DecidableEq

/-- Source `Suit::symbol`. -/
def Suit.symbol : Suit → String
  | .spades => "♠"
  | .clubs => "♣"
  | .hearts => "♥"
  | .diamonds => "♦"

/-- Source `struct Card { suit, rank }`; rank runs 2-14 in a fresh deck. -/
structure Card where
  suit : Suit
  rank : Nat
deriving DecidableEq

/-- Source `Card::rank_str`. -/
def Card.rank_str (c : Card) : String :=
  match c.rank with
  | 11 => "J"
  | 12 => "Q"
  | 13 => "K"
  | 14 => "A"
  | n => toString n

/-- Source `Card::display`. -/
def Card.display (c : Card) : String :=
  c.rank_str ++ c.suit.symbol

/-- Source `Card::is_monster`: black suits are monsters. -/
def Card.is_monster (c : Card) : Bool :=
  match c.suit with
  | .spades => true
  | .clubs => true
  | _ => false

/-- Source `Card::is_weapon`: diamonds are weapons. -/
def Card.is_weapon (c : Card) : Bool :=
  match c.suit with
  | .diamonds => true
  | _ => false

/-- Source `Card::is_potion`: hearts are potions. -/
def Card.is_potion (c : Card) : Bool :=
  match c.suit with
  | .hearts => true
  | _ => false

/-- Source `Card::value`. -/
def Card.value (c : Card) : Nat :=
  c.rank

/-- Source `struct Weapon { card, last_monster_slain }`. -/
structure Weapon where
  card : Card
  last_monster_slain : Option Nat
deriving DecidableEq

/-- Source `Weapon::can_use_against`: legal while the monster is strictly weaker
than the last one slain (the dulling rule). -/
def Weapon.can_use_against (w : Weapon) (monster_value : Nat) : Bool :=
  match w.last_monster_slain with
  | none => true
  | some last => monster_value < last

/-- Source `enum Screen`. -/
inductive Screen where
  | game
  | combat
  | help
  | logView
  | gameOver
  | confirmQuit
deriving DecidableEq

/-- Source `struct GameState`: the full mutable state of the engine, including the
presentation-facing fields (`selected_index`, `screen`, `combat_card_index`,
`combat_selection`, `message`) that the key dispatch reads and writes. -/
structure GameState where
  dungeon : List Card
  room : List Card
  discard : List Card
  health : Int
  max_health : Int
  weapon : Option Weapon
  monsters_on_weapon : List Card
  cards_played_this_turn : Nat
  potion_used_this_turn : Bool
  just_skipped : Bool
  game_over : Bool
  won : Bool
  last_card_was_potion : Option Card
  log : List String
  turn_number : Nat
  selected_index : Nat
  screen : Screen
  combat_card_index : Option Nat
  combat_selection : Nat
  message : String
deriving DecidableEq

/-- Source `GameState::log` (renamed: `log` is the field holding the event log).
Appends one entry tagged with the current turn number. -/
def GameState.log_msg (s : GameState) (msg : String) : GameState :=
  { s with log := s.log ++ ["[Turn " ++ toString s.turn_number ++ "] " ++ msg] }

/-- The fixed 44-card multiset built by `setup_deck` before the shuffle:
black suits rank 2-14, red suits rank 2-10, in source iteration order. -/
def mkDeck : List Card :=
  ((List.range' 2 13).map fun rank => { suit := Suit.spades, rank := rank })
    ++ ((List.range' 2 13).map fun rank => { suit := Suit.clubs, rank := rank })
    ++ ((List.range' 2 9).map fun rank => { suit := Suit.hearts, rank := rank })
    ++ ((List.range' 2 9).map fun rank => { suit := Suit.diamonds, rank := rank })

/-- Source `GameState::setup_deck`: clears the dungeon and rebuilds it as a
shuffled copy of the fixed multiset.  The shuffle outcome is passed in;
reachability requires it to be a permutation of `mkDeck`. -/
def GameState.setup_deck (s : GameState) (shuffled : List Card) : GameState :=
  { s with dungeon := shuffled }

/-- The `while` loop of `deal_room`: move front dungeon cards to the back of
the room until the room holds 4 cards or the dungeon runs out. -/
def deal_loop : List Card → List Card → List Card × List Card
  | room, [] => (room, [])
  | room, c :: rest =>
    if room.length < 4 then deal_loop (room ++ [c]) rest
    else (room, c :: rest)

/-- Source `GameState::deal_room`: refill the room, reset the per-room flags and the
selection, and log the newly visible room if it is non-empty. -/
def GameState.deal_room (s : GameState) : GameState :=
  let rd := deal_loop s.room s.dungeon
  let s1 := { s with
    room := rd.1
    dungeon := rd.2
    cards_played_this_turn := 0
    potion_used_this_turn := false
    last_card_was_potion := none
    selected_index := 0 }
  if s1.room ≠ [] then
    s1.log_msg ("Entered room: " ++ String.intercalate ", " (s1.room.map Card.display))
  else s1

/-- Source `GameState::calculate_score`.  Win: health, plus the remembered potion
rank when at full health.  Loss: health minus the ranks of every monster
left in the dungeon or room. -/
def GameState.calculate_score (s : GameState) : Int :=
  if s.won then
    if s.health = s.max_health then
      match s.last_card_was_potion with
      | some potion => s.health + (potion.value : Int)
      | none => s.health
    else s.health
  else
    let remaining : Int :=
      (((s.dungeon ++ s.room).filter fun c => c.is_monster).map fun c => (c.value : Int)).sum
    s.health - remaining

/-- The first half of `check_turn_complete` (source lines 330-348): after the
third play, advance the turn and either enter the final-card phase, declare
victory, or deal the next room. -/
def GameState.turn_rollover (s : GameState) : GameState :=
  if 3 ≤ s.cards_played_this_turn then
    let s2 := { s with turn_number := s.turn_number + 1 }
    if s2.dungeon = [] ∧ s2.room.length = 1 then
      { s2 with
        message := "Final card! You must face it."
        cards_played_this_turn := 0
        potion_used_this_turn := false
        selected_index := 0 }
    else if s2.dungeon = [] ∧ s2.room = [] then
      let s3 := { s2 with game_over := true, won := true }
      { s3.log_msg ("VICTORY! Score: " ++ toString s3.calculate_score) with
        screen := Screen.gameOver }
    else
      ({ s2 with just_skipped := false }).deal_room
  else s

/-- The second half of `check_turn_complete` (source lines 350-352): keep the
selection inside the room. -/
def GameState.clamp_selected (s : GameState) : GameState :=
  if s.room.length ≤ s.selected_index ∧ s.room ≠ [] then
    { s with selected_index := s.room.length - 1 }
  else s

/-- Source `GameState::check_turn_complete`: the turn rollover followed by the
selection clamp. -/
def GameState.check_turn_complete (s : GameState) : GameState :=
  s.turn_rollover.clamp_selected

/-- Source `GameState::play_potion`.  `none` models the `Vec::remove` panic on an
out-of-range index. -/
def GameState.play_potion (s : GameState) (index : Nat) : Option GameState :=
  match s.room[index]? with
  | none => none
  | some card =>
    let s1 := { s with room := s.room.eraseIdx index }
    let s2 :=
      if s1.potion_used_this_turn then
        ({ s1 with message := "Second potion - " ++ card.display ++ " wasted!" }).log_msg
          ("Wasted " ++ card.display ++ " (already used potion)")
      else
        let heal : Int := min (card.value : Int) (s1.max_health - s1.health)
        ({ s1 with
            health := s1.health + heal
            potion_used_this_turn := true
            last_card_was_potion := some card
            message := "Used " ++ card.display ++ " - healed " ++ toString heal ++ " HP!" }).log_msg
          ("Drank " ++ card.display ++ ", healed " ++ toString heal ++ " HP (now "
            ++ toString (s1.health + heal) ++ " HP)")
    some (({ s2 with
      discard := s2.discard ++ [card]
      cards_played_this_turn := s2.cards_played_this_turn + 1 }).check_turn_complete)

/-- Source `GameState::play_weapon`: equip, discarding any old weapon together with
the trophies accumulated under it. -/
def GameState.play_weapon (s : GameState) (index : Nat) : Option GameState :=
  match s.room[index]? with
  | none => none
  | some card =>
    let s1 := { s with room := s.room.eraseIdx index }
    let s2 :=
      match s1.weapon with
      | some old_weapon =>
        ({ s1 with
            discard := s1.discard ++ [old_weapon.card] ++ s1.monsters_on_weapon
            monsters_on_weapon := [] }).log_msg
          ("Discarded " ++ old_weapon.card.display ++ ", equipped " ++ card.display)
      | none => s1.log_msg ("Equipped " ++ card.display)
    some (({ s2 with
      weapon := some { card := card, last_monster_slain := none }
      last_card_was_potion := none
      message := "Equipped " ++ card.display ++ "!"
      cards_played_this_turn := s2.cards_played_this_turn + 1 }).check_turn_complete)

/-- Source `GameState::can_use_weapon_on`. -/
def GameState.can_use_weapon_on (s : GameState) (card : Card) : Bool :=
  match s.weapon with
  | some weapon => weapon.can_use_against card.value
  | none => false

/-- Source `GameState::fight_monster`.  `none` models the panics (bad index, or
`use_weapon` with no weapon equipped, where the source unwraps).  No
legality check is performed here: the weapon branch runs whenever a weapon
exists, exactly as in the source. -/
def GameState.fight_monster (s : GameState) (index : Nat) (use_weapon : Bool) :
    Option GameState :=
  match s.room[index]? with
  | none => none
  | some card =>
    let s1 := { s with room := s.room.eraseIdx index }
    let resolved : Option (GameState × Int) :=
      if use_weapon then
        match s1.weapon with
        | none => none
        | some weapon =>
          let dmg : Int := max ((card.value : Int) - (weapon.card.value : Int)) 0
          some
            (({ s1 with
                weapon := some { weapon with last_monster_slain := some card.value }
                monsters_on_weapon := s1.monsters_on_weapon ++ [card]
                message := "Slew " ++ card.display ++ " with weapon - took "
                  ++ toString dmg ++ " damage!" }).log_msg
              ("Killed " ++ card.display ++ " with " ++ weapon.card.display ++ ", took "
                ++ toString dmg ++ " dmg (now " ++ toString (s1.health - dmg) ++ " HP)"),
             dmg)
      else
        let dmg : Int := (card.value : Int)
        some
          (({ s1 with
              discard := s1.discard ++ [card]
              message := "Fought " ++ card.display ++ " barehanded - took "
                ++ toString dmg ++ " damage!" }).log_msg
            ("Fought " ++ card.display ++ " barehanded, took " ++ toString dmg
              ++ " dmg (now " ++ toString (s1.health - dmg) ++ " HP)"),
           dmg)
    match resolved with
    | none => none
    | some (s2, dmg) =>
      let s3 := { s2 with
        health := s2.health - dmg
        last_card_was_potion := none
        cards_played_this_turn := s2.cards_played_this_turn + 1 }
      if s3.health ≤ (0 : Int) then
        some { ({ s3 with health := 0, game_over := true, won := false }).log_msg "DIED!" with
          screen := Screen.gameOver }
      else
        some s3.check_turn_complete

/-- Source `GameState::skip_room`: rejected (message only) after a skip or after any
play this room; otherwise the room goes to the back of the dungeon and a new
room is dealt immediately. -/
def GameState.skip_room (s : GameState) : GameState :=
  if s.just_skipped then
    { s with message := "Cannot skip two rooms in a row!" }
  else if 0 < s.cards_played_this_turn then
    { s with message := "Cannot skip after playing cards!" }
  else
    let room_str := String.intercalate ", " (s.room.map Card.display)
    ({ ({ s with
        dungeon := s.dungeon ++ s.room
        room := []
        just_skipped := true }).log_msg ("Skipped room (" ++ room_str ++ ")") with
      message := "Skipped room" }).deal_room

/-- The field values `GameState::new` writes before `setup_deck`. -/
def GameState.initial : GameState where
  dungeon := []
  room := []
  discard := []
  health := 20
  max_health := 20
  weapon := none
  monsters_on_weapon := []
  cards_played_this_turn := 0
  potion_used_this_turn := false
  just_skipped := false
  game_over := false
  won := false
  last_card_was_potion := none
  log := []
  turn_number := 1
  selected_index := 0
  screen := Screen.game
  combat_card_index := none
  combat_selection := 0
  message := ""

/-- Source `GameState::new`, parameterised by the shuffle outcome. -/
def GameState.new (shuffled : List Card) : GameState :=
  (((GameState.initial.setup_deck shuffled).log_msg
    "Entered the dungeon with 20 HP").deal_room)

/-- The shared body of the Enter/Space and number-key handlers on the game
screen: dispatch on the role of the selected card.  A monster with a weapon
equipped opens the combat screen instead of resolving at once.  The `none`
results of the play functions cannot occur here because the index was just
found in the room; `getD` keeps the dispatch total as in the source, where
the bounds check precedes the call. -/
def GameState.play_card_at (s : GameState) (idx : Nat) : GameState :=
  match s.room[idx]? with
  | none => s
  | some card =>
    if card.is_potion then (s.play_potion idx).getD s
    else if card.is_weapon then (s.play_weapon idx).getD s
    else if s.weapon = none then (s.fight_monster idx false).getD s
    else { s with
      combat_card_index := some idx
      combat_selection := 0
      screen := Screen.combat }

/-- One key press handled by `run_app`, per screen.  Quitting and the
game-over replay are omitted: they end the session or restart it with a
fresh `GameState::new`, which the reachability relation covers directly. -/
inductive Cmd where
  | playCard (idx : Fin 4)
  | playSelected
  | navNext
  | navPrev
  | navDown
  | navUp
  | skip
  | openHelp
  | openLog
  | openQuit
  | combatKeyOne
  | combatKeyTwo
  | combatBack
  | combatNavUp
  | combatNavDown
  | combatConfirm
  | quitNo
  | anyKey

/-- The `Screen::Game` arm of the key dispatch in `run_app`. -/
def gameScreenKey (s : GameState) (c : Cmd) : GameState :=
  match c with
  | .openQuit => { s with screen := Screen.confirmQuit }
  | .openHelp => { s with screen := Screen.help }
  | .openLog => { s with screen := Screen.logView }
  | .skip => s.skip_room
  | .navNext =>
    if s.room ≠ [] then
      { s with selected_index := (s.selected_index + 1) % s.room.length }
    else s
  | .navPrev =>
    if s.room ≠ [] then
      { s with selected_index :=
          if s.selected_index = 0 then s.room.length - 1 else s.selected_index - 1 }
    else s
  | .navDown =>
    if s.selected_index + 2 < s.room.length then
      { s with selected_index := s.selected_index + 2 }
    else s
  | .navUp =>
    if 2 ≤ s.selected_index then { s with selected_index := s.selected_index - 2 }
    else s
  | .playSelected =>
    if s.selected_index < s.room.length then s.play_card_at s.selected_index else s
  | .playCard idx =>
    if idx.val < s.room.length then
      ({ s with selected_index := idx.val }).play_card_at idx.val
    else s
  | _ => s

/-- The `Screen::Combat` arm of the key dispatch, given the pending card
index and the card found there (the source unwraps and indexes first). -/
def combatScreenKey (s : GameState) (card_idx : Nat) (card : Card) (c : Cmd) : GameState :=
  let can_use_weapon := s.can_use_weapon_on card
  let num_options := if can_use_weapon then 3 else 2
  match c with
  | .combatNavUp =>
    { s with combat_selection :=
        if s.combat_selection = 0 then num_options - 1 else s.combat_selection - 1 }
  | .combatNavDown =>
    { s with combat_selection := (s.combat_selection + 1) % num_options }
  | .combatConfirm =>
    let s1 :=
      if can_use_weapon then
        match s.combat_selection with
        | 0 => { (s.fight_monster card_idx true).getD s with screen := Screen.game }
        | 1 => { (s.fight_monster card_idx false).getD s with screen := Screen.game }
        | _ => { s with screen := Screen.game }
      else
        match s.combat_selection with
        | 0 => { (s.fight_monster card_idx false).getD s with screen := Screen.game }
        | _ => { s with screen := Screen.game }
    { s1 with combat_card_index := none }
  | .combatKeyOne =>
    let s1 :=
      if can_use_weapon then (s.fight_monster card_idx true).getD s
      else (s.fight_monster card_idx false).getD s
    { s1 with screen := Screen.game, combat_card_index := none }
  | .combatKeyTwo =>
    if can_use_weapon then
      { (s.fight_monster card_idx false).getD s with
        screen := Screen.game, combat_card_index := none }
    else s
  | .combatBack => { s with screen := Screen.game, combat_card_index := none }
  | _ => s

/-- The key dispatch of `run_app`: match on the current screen, then on the
key, exactly as the nested `match` in the source does. -/
def applyCmd (s : GameState) (c : Cmd) : GameState :=
  match s.screen with
  | Screen.game => gameScreenKey s c
  | Screen.combat =>
    match s.combat_card_index with
    | none => s
    | some card_idx =>
      match s.room[card_idx]? with
      | none => s
      | some card => combatScreenKey s card_idx card c
  | Screen.help => { s with screen := Screen.game }
  | Screen.logView => { s with screen := Screen.game }
  | Screen.gameOver => s
  | Screen.confirmQuit =>
    match c with
    | .quitNo => { s with screen := Screen.game }
    | _ => s

/-- The card-conservation count: every card is in exactly one of the dungeon,
the room, the discard pile, the trophy pile, or the weapon slot. -/
def totalCards (s : GameState) : Nat :=
  s.dungeon.length + s.room.length + s.discard.length + s.monsters_on_weapon.length
    + (match s.weapon with | some _ => 1 | none => 0)

/-- The states the engine can be in: a fresh game over any fair shuffle of
the fixed deck, closed under the key dispatch.  `reset` produces exactly a
fresh `GameState::new`, so it is covered by `init`. -/
inductive Reachable : GameState → Prop where
  | init (d : List Card) (hd : d.Perm mkDeck) : Reachable (GameState.new d)
  | step (s : GameState) (c : Cmd) (h : Reachable s) : Reachable (applyCmd s c)

/-- The room the deal loop produces, as a take from the dungeon front. -/
def dealtRoom (s : GameState) : List Card :=
  s.room ++ s.dungeon.take (4 - s.room.length)

/-! ### Concrete states exercising the theorems on explicit inputs -/

/-- A black (monster) card of the given rank. -/
def spadeCard (r : Nat) : Card := { suit := Suit.spades, rank := r }

/-- A heart (potion) card of the given rank. -/
def heartCard (r : Nat) : Card := { suit := Suit.hearts, rank := r }

/-- A diamond (weapon) card of the given rank. -/
def diamondCard (r : Nat) : Card := { suit := Suit.diamonds, rank := r }

/-- A combat screen over a rank-4 monster with a dulled weapon: the last
kill was rank 3, so weapon use is illegal. -/
def dulledCombatState : GameState :=
  { GameState.initial with
    screen := Screen.combat
    combat_card_index := some 0
    room := [spadeCard 4]
    weapon := some { card := diamondCard 5, last_monster_slain := some 3 } }

/-- An empty room with a non-empty dungeon, nothing played, no prior skip. -/
def emptyRoomSkipState : GameState :=
  { GameState.initial with dungeon := [spadeCard 2] }

/-- An empty room, empty dungeon, nothing played, no prior skip. -/
def emptyRoomEmptyDungeonState : GameState :=
  { GameState.initial with discard := [spadeCard 2] }

/-- A fresh potion in the room with health below the cap. -/
def potionState : GameState :=
  { GameState.initial with room := [heartCard 5], health := 16 }

/-- A potion already used this room, an earlier heal on record, two cards
played, and the dungeon empty: the next potion is wasted and ends the game. -/
def wastedPotionState : GameState :=
  { GameState.initial with
    room := [heartCard 3]
    potion_used_this_turn := true
    last_card_was_potion := some (heartCard 4)
    cards_played_this_turn := 2 }

/-- A rank-8 monster in the room and a fresh rank-5 weapon equipped. -/
def fightState : GameState :=
  { GameState.initial with
    room := [spadeCard 8]
    weapon := some { card := diamondCard 5, last_monster_slain := none } }

/-- Three cards played with dungeon and room both empty: the turn rollover
declares victory. -/
def rolloverState : GameState :=
  { GameState.initial with cards_played_this_turn := 3 }

/-- A terminal winning state at full health with a fresh heal on record. -/
def wonState : GameState :=
  { GameState.initial with won := true, last_card_was_potion := some (heartCard 4) }

/-! ### Helper lemmas -/

/-- Closed form of the deal loop: it tops the room up to four cards from the
front of the dungeon, appending in draw order. -/
theorem deal_loop_eq (d r : List Card) :
    deal_loop r d = (r ++ d.take (4 - r.length), d.drop (4 - r.length)) := by
  induction d generalizing r with
  | nil => simp [deal_loop]
  | cons c rest ih =>
    by_cases h : r.length < 4
    · have h4 : 4 - r.length = (4 - (r ++ [c]).length) + 1 := by
        simp only [List.length_append, List.length_cons, List.length_nil]
        omega
      rw [deal_loop, if_pos h, ih, h4]
      simp [List.take_succ_cons, List.drop_succ_cons]
    · have h4 : 4 - r.length = 0 := by omega
      rw [deal_loop, if_neg h, h4]
      simp

/-- Closed form of `deal_room` as a single record update. -/
theorem deal_room_eq (s : GameState) :
    s.deal_room = { s with
      room := dealtRoom s
      dungeon := s.dungeon.drop (4 - s.room.length)
      cards_played_this_turn := 0
      potion_used_this_turn := false
      last_card_was_potion := none
      selected_index := 0
      log := if dealtRoom s = [] then s.log
        else s.log ++ ["[Turn " ++ toString s.turn_number ++ "] "
          ++ ("Entered room: " ++ String.intercalate ", " ((dealtRoom s).map Card.display))] } := by
  unfold GameState.deal_room dealtRoom
  rw [deal_loop_eq]
  dsimp only
  split
  · rename_i h
    simp only [ne_eq] at h
    simp [GameState.log_msg, h, String.append_assoc]
  · rename_i h
    simp only [ne_eq, not_not] at h
    simp [h]

/-- The selection clamp as a single record update. -/
theorem clamp_selected_eq (s : GameState) :
    s.clamp_selected = { s with selected_index :=
      if s.room.length ≤ s.selected_index ∧ s.room ≠ [] then s.room.length - 1
      else s.selected_index } := by
  unfold GameState.clamp_selected
  split
  · rename_i h
    simp [h]
  · rename_i h
    simp [h]

/-- Source `log_msg` touches only the log. -/
theorem totalCards_log_msg (s : GameState) (m : String) :
    totalCards (s.log_msg m) = totalCards s := rfl

/-- Source `deal_room` moves cards between dungeon and room only. -/
theorem totalCards_deal_room (s : GameState) :
    totalCards s.deal_room = totalCards s := by
  rw [deal_room_eq]
  simp [totalCards, dealtRoom, List.length_take, List.length_drop]
  omega

/-- Source `check_turn_complete` moves cards only through `deal_room`. -/
theorem totalCards_check_turn_complete (s : GameState) :
    totalCards s.check_turn_complete = totalCards s := by
  unfold GameState.check_turn_complete
  rw [clamp_selected_eq]
  have h1 : ∀ (x : GameState) (v : Nat),
      totalCards { x with selected_index := v } = totalCards x := fun _ _ => rfl
  rw [h1]
  unfold GameState.turn_rollover
  dsimp only
  split
  · split
    · simp [totalCards]
    · split
      · simp [totalCards, GameState.log_msg]
      · rw [totalCards_deal_room]
        simp [totalCards]
  · rfl

/-- A valid room lookup bounds the index. -/
theorem room_lookup_lt {s : GameState} {i : Nat} {card : Card}
    (hc : s.room[i]? = some card) : i < s.room.length :=
  (List.getElem?_eq_some.mp hc).1

/-- Source `play_potion` moves the potion card from room to discard. -/
theorem totalCards_play_potion {s s' : GameState} {i : Nat}
    (h : s.play_potion i = some s') : totalCards s' = totalCards s := by
  unfold GameState.play_potion at h
  cases hc : s.room[i]? with
  | none => rw [hc] at h; exact absurd h (by simp)
  | some card =>
    rw [hc] at h
    have hi : i < s.room.length := room_lookup_lt hc
    dsimp only at h
    split at h <;>
    · injection h with h
      subst h
      rw [totalCards_check_turn_complete]
      simp [totalCards, GameState.log_msg, List.length_eraseIdx_of_lt hi]
      omega

/-- Source `play_weapon` moves one card into the slot and sends the old weapon and
its trophies to the discard pile. -/
theorem totalCards_play_weapon {s s' : GameState} {i : Nat}
    (h : s.play_weapon i = some s') : totalCards s' = totalCards s := by
  unfold GameState.play_weapon at h
  cases hc : s.room[i]? with
  | none => rw [hc] at h; exact absurd h (by simp)
  | some card =>
    rw [hc] at h
    have hi : i < s.room.length := room_lookup_lt hc
    dsimp only at h
    cases hw : s.weapon with
    | none =>
      rw [hw] at h
      injection h with h
      subst h
      rw [totalCards_check_turn_complete]
      simp [totalCards, GameState.log_msg, List.length_eraseIdx_of_lt hi, hw]
      omega
    | some old_weapon =>
      rw [hw] at h
      injection h with h
      subst h
      rw [totalCards_check_turn_complete]
      simp [totalCards, GameState.log_msg, List.length_eraseIdx_of_lt hi, hw]
      omega

/-- Source `fight_monster` moves the monster card to discard (barehanded) or onto
the weapon (weapon mode). -/
theorem totalCards_fight_monster {s s' : GameState} {i : Nat} {b : Bool}
    (h : s.fight_monster i b = some s') : totalCards s' = totalCards s := by
  unfold GameState.fight_monster at h
  cases hc : s.room[i]? with
  | none => rw [hc] at h; exact absurd h (by simp)
  | some card =>
    rw [hc] at h
    have hi : i < s.room.length := room_lookup_lt hc
    dsimp only at h
    cases b with
    | false =>
      simp only [Bool.false_eq_true, if_false] at h
      split at h <;>
      · injection h with h
        subst h
        first
          | rw [totalCards_check_turn_complete]
          | skip
        simp [totalCards, GameState.log_msg, List.length_eraseIdx_of_lt hi]
        omega
    | true =>
      simp only [if_true] at h
      cases hw : s.weapon with
      | none => rw [hw] at h; exact absurd h (by simp)
      | some weapon =>
        rw [hw] at h
        dsimp only at h
        split at h <;>
        · injection h with h
          subst h
          first
            | rw [totalCards_check_turn_complete]
            | skip
          simp [totalCards, GameState.log_msg, List.length_eraseIdx_of_lt hi, hw]
          omega

/-- Source `skip_room` moves the room to the dungeon back and deals again. -/
theorem totalCards_skip_room (s : GameState) :
    totalCards s.skip_room = totalCards s := by
  unfold GameState.skip_room
  split
  · rfl
  · split
    · rfl
    · rw [totalCards_deal_room]
      simp [totalCards, GameState.log_msg]
      try omega

/-- The card-play dispatch preserves the count in every branch. -/
theorem totalCards_play_card_at (s : GameState) (i : Nat) :
    totalCards (s.play_card_at i) = totalCards s := by
  unfold GameState.play_card_at
  cases hc : s.room[i]? with
  | none => rfl
  | some card =>
    dsimp only
    split
    · cases hp : s.play_potion i with
      | none => simp [hp, totalCards]
      | some s' => simp [hp, totalCards_play_potion hp]
    · split
      · cases hp : s.play_weapon i with
        | none => simp [hp, totalCards]
        | some s' => simp [hp, totalCards_play_weapon hp]
      · split
        · cases hp : s.fight_monster i false with
          | none => simp [hp, totalCards]
          | some s' => simp [hp, totalCards_fight_monster hp]
        · simp [totalCards]

/-- The count only reads the five zone fields. -/
theorem totalCards_eq_of_zones (x y : GameState)
    (h1 : x.dungeon = y.dungeon) (h2 : x.room = y.room) (h3 : x.discard = y.discard)
    (h4 : x.monsters_on_weapon = y.monsters_on_weapon) (h5 : x.weapon = y.weapon) :
    totalCards x = totalCards y := by
  simp [totalCards, h1, h2, h3, h4, h5]

/-- The combat screen resolves a fight through `getD` and then rewrites the
screen bookkeeping; the count is preserved either way. -/
theorem totalCards_combat_resolve (s : GameState) (i : Nat) (b : Bool)
    (scr : Screen) (cci : Option Nat) :
    totalCards { (s.fight_monster i b).getD s with
      screen := scr, combat_card_index := cci } = totalCards s := by
  cases hf : s.fight_monster i b with
  | none => exact totalCards_eq_of_zones _ s rfl rfl rfl rfl rfl
  | some s' =>
    exact (totalCards_eq_of_zones _ s' rfl rfl rfl rfl rfl).trans
      (totalCards_fight_monster hf)

/-- The game-screen keys preserve the card count. -/
theorem totalCards_gameScreenKey (s : GameState) (c : Cmd) :
    totalCards (gameScreenKey s c) = totalCards s := by
  unfold gameScreenKey
  cases c <;> dsimp only
  case skip => exact totalCards_skip_room s
  case playSelected =>
    split
    · exact totalCards_play_card_at s _
    · rfl
  case playCard idx =>
    split
    · rw [totalCards_play_card_at]
      exact totalCards_eq_of_zones _ s rfl rfl rfl rfl rfl
    · rfl
  case navNext => split <;> rfl
  case navPrev => split <;> rfl
  case navDown => split <;> rfl
  case navUp => split <;> rfl
  all_goals rfl

/-- The combat-screen keys preserve the card count. -/
theorem totalCards_combatScreenKey (s : GameState) (i : Nat) (card : Card) (c : Cmd) :
    totalCards (combatScreenKey s i card c) = totalCards s := by
  unfold combatScreenKey
  cases c <;> try dsimp only
  case combatConfirm =>
    split
    · rcases s.combat_selection with _ | _ | n <;>
        first
          | exact totalCards_combat_resolve s i true Screen.game none
          | exact totalCards_combat_resolve s i false Screen.game none
          | exact totalCards_eq_of_zones _ s rfl rfl rfl rfl rfl
    · rcases s.combat_selection with _ | n <;>
        first
          | exact totalCards_combat_resolve s i false Screen.game none
          | exact totalCards_eq_of_zones _ s rfl rfl rfl rfl rfl
  case combatKeyOne =>
    split
    · exact totalCards_combat_resolve s i true Screen.game none
    · exact totalCards_combat_resolve s i false Screen.game none
  case combatKeyTwo =>
    split
    · exact totalCards_combat_resolve s i false Screen.game none
    · rfl
  all_goals rfl

/-- Every key press preserves the card count. -/
theorem totalCards_applyCmd (s : GameState) (c : Cmd) :
    totalCards (applyCmd s c) = totalCards s := by
  unfold applyCmd
  cases s.screen <;> dsimp only
  case game => exact totalCards_gameScreenKey s c
  case combat =>
    cases s.combat_card_index with
    | none => rfl
    | some ci =>
      dsimp only
      cases s.room[ci]? with
      | none => rfl
      | some card =>
        dsimp only
        exact totalCards_combatScreenKey s ci card c
  all_goals first
    | rfl
    | (cases c <;> rfl)

/-- A fresh game holds exactly the 44 cards of the shuffled deck. -/
theorem totalCards_new {d : List Card} (hd : d.Perm mkDeck) :
    totalCards (GameState.new d) = 44 := by
  unfold GameState.new
  rw [totalCards_deal_room]
  have hlen : d.length = 44 := by
    rw [hd.length_eq]
    rfl
  simp [totalCards, GameState.log_msg, GameState.setup_deck, GameState.initial, hlen]

/-- The conservation invariant holds in every reachable state. -/
theorem reachable_totalCards {s : GameState} (h : Reachable s) :
    totalCards s = 44 := by
  induction h with
  | init d hd => exact totalCards_new hd
  | step s c _ ih => rw [totalCards_applyCmd]; exact ih

/-- With fewer than three cards played, `check_turn_complete` is just the
selection clamp. -/
theorem check_lt_fields (s : GameState) (h : s.cards_played_this_turn < 3) :
    s.check_turn_complete = s.clamp_selected := by
  unfold GameState.check_turn_complete GameState.turn_rollover
  rw [if_neg (by omega)]

/-- Source `check_turn_complete` never touches the discard pile, the weapon slot,
the trophies, or the health pools. -/
theorem check_preserves (s : GameState) :
    s.check_turn_complete.discard = s.discard
    ∧ s.check_turn_complete.weapon = s.weapon
    ∧ s.check_turn_complete.monsters_on_weapon = s.monsters_on_weapon
    ∧ s.check_turn_complete.health = s.health
    ∧ s.check_turn_complete.max_health = s.max_health := by
  unfold GameState.check_turn_complete
  rw [clamp_selected_eq]
  refine ⟨?_, ?_, ?_, ?_, ?_⟩ <;>
  · show _ = _
    unfold GameState.turn_rollover
    dsimp only
    split
    · split
      · rfl
      · split
        · rfl
        · rw [deal_room_eq]
    · rfl

/-! ### The claims -/

/-- Claim C1: for every reachable state and every command - play a potion,
equip a weapon, fight a monster barehanded or with the weapon, skip the
room, or deal - the total number of cards in dungeon, room, discard and
trophies plus one for an equipped weapon equals 44 after the command,
including after rejected commands. -/
theorem claim1_conservation (s : GameState) (h : Reachable s) (c : Cmd) :
    totalCards (applyCmd s c) = 44 ∧ totalCards s.deal_room = 44 := by
  constructor
  · rw [totalCards_applyCmd]
    exact reachable_totalCards h
  · rw [totalCards_deal_room]
    exact reachable_totalCards h

/-- Witness for C1 at the fresh identity-shuffled game and the skip key. -/
theorem claim1_witness :
    totalCards (applyCmd (GameState.new mkDeck) Cmd.skip) = 44
    ∧ totalCards (GameState.new mkDeck).deal_room = 44 :=
  claim1_conservation _ (Reachable.init mkDeck (List.Perm.refl _)) Cmd.skip

/-- Claim C8: every freshly built deck has exactly 44 cards; the monster
ranks cover 2-14 exactly twice; the weapon and the potion ranks each cover
2-10 exactly once; role is fixed by the suit group alone. -/
theorem claim8_deck (d : List Card) (hd : d.Perm mkDeck) :
    d.length = 44
    ∧ (∀ r < 15, 2 ≤ r → (d.filter fun c => c.is_monster && c.rank == r).length = 2)
    ∧ (∀ r < 11, 2 ≤ r →
        (d.filter fun c => c.is_weapon && c.rank == r).length = 1
        ∧ (d.filter fun c => c.is_potion && c.rank == r).length = 1)
    ∧ (d.filter fun c => c.is_monster).length = 26
    ∧ (d.filter fun c => c.is_weapon).length = 9
    ∧ (d.filter fun c => c.is_potion).length = 9
    ∧ (∀ c ∈ d, c.is_monster = (c.suit == Suit.spades || c.suit == Suit.clubs)
        ∧ c.is_weapon = (c.suit == Suit.diamonds)
        ∧ c.is_potion = (c.suit == Suit.hearts)) := by
  have hmem : ∀ c ∈ mkDeck,
      c.is_monster = (c.suit == Suit.spades || c.suit == Suit.clubs)
      ∧ c.is_weapon = (c.suit == Suit.diamonds)
      ∧ c.is_potion = (c.suit == Suit.hearts) := by decide
  have hmon : ∀ r < 15, 2 ≤ r →
      (mkDeck.filter fun c => c.is_monster && c.rank == r).length = 2 := by decide
  have hwp : ∀ r < 11, 2 ≤ r →
      (mkDeck.filter fun c => c.is_weapon && c.rank == r).length = 1
      ∧ (mkDeck.filter fun c => c.is_potion && c.rank == r).length = 1 := by decide
  refine ⟨by rw [hd.length_eq]; rfl, ?_, ?_, ?_, ?_, ?_, ?_⟩
  · intro r hr h2
    rw [(hd.filter _).length_eq]
    exact hmon r hr h2
  · intro r hr h2
    rw [(hd.filter _).length_eq, (hd.filter _).length_eq]
    exact hwp r hr h2
  · rw [(hd.filter _).length_eq]
    rfl
  · rw [(hd.filter _).length_eq]
    rfl
  · rw [(hd.filter _).length_eq]
    rfl
  · intro c hc
    exact hmem c (hd.subset hc)

/-- Witness for C8 at the identity shuffle. -/
theorem claim8_witness :
    mkDeck.Perm mkDeck ∧ mkDeck.length = 44 :=
  ⟨List.Perm.refl _, (claim8_deck mkDeck (List.Perm.refl _)).1⟩

/-- Summing ranks over the monster filter equals summing a guarded rank over
the whole list. -/
theorem monster_sum_eq (l : List Card) :
    ((l.filter fun c => c.is_monster).map fun c => (c.value : Int)).sum
      = (l.map fun c => if c.is_monster then (c.rank : Int) else 0).sum := by
  induction l with
  | nil => rfl
  | cons c rest ih =>
    simp only [Card.value] at ih
    by_cases h : c.is_monster
    · simp [h, ih, Card.value]
    · simp [h, ih, Card.value]

/-- Claim C7: the final score is health minus all unbeaten monster ranks on
a loss; on a win it is health, plus the remembered potion rank exactly when
health is full and the last successful action was a potion heal. -/
theorem claim7_score (s : GameState) :
    (s.won = true →
      s.calculate_score = s.health +
        (if s.health = s.max_health then
          (match s.last_card_was_potion with
           | some p => (p.rank : Int)
           | none => 0)
         else 0))
    ∧ (s.won = false →
      s.calculate_score =
        s.health - ((s.dungeon ++ s.room).map fun c =>
          if c.is_monster then (c.rank : Int) else 0).sum) := by
  constructor
  · intro hw
    unfold GameState.calculate_score
    rw [if_pos hw]
    split
    · cases s.last_card_was_potion <;> simp [Card.value]
    · simp
  · intro hw
    unfold GameState.calculate_score
    rw [if_neg (by simp [hw])]
    rw [monster_sum_eq]

/-- Claim C6: `skip_room` succeeds exactly when nothing has been played this
room and the previous room was not skipped; on success the room cards go to
the dungeon back in order and a fresh room is dealt at once, consuming no
turn; both rejections change nothing but the transient message. -/
theorem claim6_skip (s : GameState) :
    (s.just_skipped = true →
      s.skip_room = { s with message := "Cannot skip two rooms in a row!" })
    ∧ (s.just_skipped = false → 0 < s.cards_played_this_turn →
      s.skip_room = { s with message := "Cannot skip after playing cards!" })
    ∧ (s.just_skipped = false → s.cards_played_this_turn = 0 →
      s.skip_room.just_skipped = true
      ∧ s.skip_room.room = (s.dungeon ++ s.room).take 4
      ∧ s.skip_room.dungeon = (s.dungeon ++ s.room).drop 4
      ∧ s.skip_room.turn_number = s.turn_number
      ∧ s.skip_room.cards_played_this_turn = 0
      ∧ s.skip_room.health = s.health
      ∧ s.skip_room.discard = s.discard
      ∧ s.skip_room.monsters_on_weapon = s.monsters_on_weapon
      ∧ s.skip_room.weapon = s.weapon) := by
  refine ⟨?_, ?_, ?_⟩
  · intro hj
    unfold GameState.skip_room
    rw [if_pos hj]
  · intro hj hp
    unfold GameState.skip_room
    rw [if_neg (by simp [hj]), if_pos hp]
  · intro hj hp
    unfold GameState.skip_room
    rw [if_neg (by simp [hj]), if_neg (by omega)]
    rw [deal_room_eq]
    refine ⟨rfl, ?_, ?_, rfl, rfl, rfl, rfl, rfl, rfl⟩
    · simp [dealtRoom, GameState.log_msg]
    · simp [dealtRoom, GameState.log_msg]

/-- Claim C5: the first potion of a room heals `min(rank, max_health -
health)`, marks the potion of the room as used, and lands in the discard pile;
any further potion before replenishment leaves health unchanged but is
still removed from the room, discarded, and counted as a played action. -/
theorem claim5_potion (s : GameState) (index : Nat) (card : Card)
    (hc : s.room[index]? = some card)
    (hlt : s.cards_played_this_turn + 1 < 3) :
    (s.potion_used_this_turn = false →
      ∃ s', s.play_potion index = some s'
        ∧ s'.health = s.health + min (card.rank : Int) (s.max_health - s.health)
        ∧ s'.potion_used_this_turn = true
        ∧ s'.last_card_was_potion = some card
        ∧ s'.discard = s.discard ++ [card]
        ∧ s'.room = s.room.eraseIdx index
        ∧ s'.cards_played_this_turn = s.cards_played_this_turn + 1)
    ∧ (s.potion_used_this_turn = true →
      ∃ s', s.play_potion index = some s'
        ∧ s'.health = s.health
        ∧ s'.potion_used_this_turn = true
        ∧ s'.last_card_was_potion = s.last_card_was_potion
        ∧ s'.discard = s.discard ++ [card]
        ∧ s'.room = s.room.eraseIdx index
        ∧ s'.cards_played_this_turn = s.cards_played_this_turn + 1) := by
  have hsome : ∃ s', s.play_potion index = some s' := by
    unfold GameState.play_potion
    rw [hc]
    dsimp only
    split <;> exact ⟨_, rfl⟩
  obtain ⟨s', hp⟩ := hsome
  constructor
  · intro hu
    refine ⟨s', hp, ?_⟩
    unfold GameState.play_potion at hp
    rw [hc] at hp
    dsimp only at hp
    rw [if_neg (by simp [hu])] at hp
    injection hp with hp
    subst hp
    refine ⟨?_, ?_, ?_, ?_, ?_, ?_⟩ <;> rw [check_lt_fields _ hlt, clamp_selected_eq] <;>
      first
        | rfl
        | assumption
        | simp [GameState.log_msg, Card.value]
  · intro hu
    refine ⟨s', hp, ?_⟩
    unfold GameState.play_potion at hp
    rw [hc] at hp
    dsimp only at hp
    rw [if_pos (by simp [hu])] at hp
    injection hp with hp
    subst hp
    refine ⟨?_, ?_, ?_, ?_, ?_, ?_⟩ <;> rw [check_lt_fields _ hlt, clamp_selected_eq] <;>
      first
        | rfl
        | assumption
        | simp [GameState.log_msg, Card.value]

/-- Witness for C5: a rank-5 potion at 16/20 health heals 4. -/
theorem claim5_witness :
    potionState.room[0]? = some (heartCard 5)
    ∧ potionState.cards_played_this_turn + 1 < 3
    ∧ (∃ s', potionState.play_potion 0 = some s'
        ∧ s'.health = 20
        ∧ s'.potion_used_this_turn = true
        ∧ s'.last_card_was_potion = some (heartCard 5)
        ∧ s'.discard = [heartCard 5]
        ∧ s'.room = []
        ∧ s'.cards_played_this_turn = 1) :=
  ⟨rfl, by decide,
    (claim5_potion potionState 0 (heartCard 5) rfl (by decide)).1 rfl⟩

/-- Claim C4: a barehanded fight deals the monster rank and discards the
card; a weapon fight deals `max(0, rank - weapon rank)`, records the kill in
`last_slain`, and puts the card on the weapon; damage comes off health, and
a drop to 0 or below clamps health, ends the game as a loss, and skips the
turn-completion check (no turn increment, no deal). -/
theorem claim4_fight (s : GameState) (index : Nat) (card : Card)
    (hc : s.room[index]? = some card) :
    (∃ s', s.fight_monster index false = some s'
      ∧ s'.discard = s.discard ++ [card]
      ∧ s'.monsters_on_weapon = s.monsters_on_weapon
      ∧ s'.weapon = s.weapon
      ∧ (s.health - (card.rank : Int) ≤ 0 →
          s'.health = 0 ∧ s'.game_over = true ∧ s'.won = false
          ∧ s'.turn_number = s.turn_number ∧ s'.dungeon = s.dungeon
          ∧ s'.room = s.room.eraseIdx index)
      ∧ (0 < s.health - (card.rank : Int) →
          s'.health = s.health - (card.rank : Int)))
    ∧ (∀ w, s.weapon = some w →
      ∃ s', s.fight_monster index true = some s'
        ∧ s'.weapon = some { card := w.card, last_monster_slain := some card.rank }
        ∧ s'.monsters_on_weapon = s.monsters_on_weapon ++ [card]
        ∧ s'.discard = s.discard
        ∧ (s.health - max ((card.rank : Int) - (w.card.rank : Int)) 0 ≤ 0 →
            s'.health = 0 ∧ s'.game_over = true ∧ s'.won = false
            ∧ s'.turn_number = s.turn_number ∧ s'.dungeon = s.dungeon
            ∧ s'.room = s.room.eraseIdx index)
        ∧ (0 < s.health - max ((card.rank : Int) - (w.card.rank : Int)) 0 →
            s'.health = s.health - max ((card.rank : Int) - (w.card.rank : Int)) 0)) := by
  constructor
  · have hsome : ∃ s', s.fight_monster index false = some s' := by
      unfold GameState.fight_monster
      rw [hc]
      dsimp only
      simp only [Bool.false_eq_true, if_false]
      split <;> exact ⟨_, rfl⟩
    obtain ⟨s', hp⟩ := hsome
    refine ⟨s', hp, ?_⟩
    unfold GameState.fight_monster at hp
    rw [hc] at hp
    dsimp only at hp
    simp only [Bool.false_eq_true, if_false] at hp
    split at hp
    · rename_i hdead
      injection hp with hp
      subst hp
      simp only [GameState.log_msg, Card.value] at hdead
      refine ⟨rfl, rfl, rfl, ?_, ?_⟩
      · intro _
        exact ⟨rfl, rfl, rfl, rfl, rfl, rfl⟩
      · intro hpos
        exfalso
        try dsimp only at hdead
        omega
    · rename_i hlive
      injection hp with hp
      subst hp
      simp only [GameState.log_msg, Card.value] at hlive
      refine ⟨?_, ?_, ?_, ?_, ?_⟩
      · exact ((check_preserves _).1).trans rfl
      · exact ((check_preserves _).2.2.1).trans rfl
      · exact ((check_preserves _).2.1).trans rfl
      · intro hdead
        exfalso
        try dsimp only at hlive
        omega
      · intro _
        exact ((check_preserves _).2.2.2.1).trans rfl
  · intro w hw
    have hsome : ∃ s', s.fight_monster index true = some s' := by
      unfold GameState.fight_monster
      rw [hc]
      dsimp only
      simp only [if_true]
      rw [show ({ s with room := s.room.eraseIdx index } : GameState).weapon = some w from hw]
      dsimp only
      split <;> exact ⟨_, rfl⟩
    obtain ⟨s', hp⟩ := hsome
    refine ⟨s', hp, ?_⟩
    unfold GameState.fight_monster at hp
    rw [hc] at hp
    dsimp only at hp
    simp only [if_true] at hp
    rw [show ({ s with room := s.room.eraseIdx index } : GameState).weapon = some w from hw] at hp
    dsimp only at hp
    split at hp
    · rename_i hdead
      injection hp with hp
      subst hp
      simp only [GameState.log_msg, Card.value] at hdead
      refine ⟨rfl, rfl, rfl, ?_, ?_⟩
      · intro _
        exact ⟨rfl, rfl, rfl, rfl, rfl, rfl⟩
      · intro hpos
        exfalso
        try dsimp only at hdead
        omega
    · rename_i hlive
      injection hp with hp
      subst hp
      simp only [GameState.log_msg, Card.value] at hlive
      refine ⟨?_, ?_, ?_, ?_, ?_⟩
      · exact ((check_preserves _).2.1).trans rfl
      · exact ((check_preserves _).2.2.1).trans rfl
      · exact ((check_preserves _).1).trans rfl
      · intro hdead
        exfalso
        try dsimp only at hlive
        omega
      · intro _
        exact ((check_preserves _).2.2.2.1).trans rfl

/-- Witness for C4, the scenario given in the spec: a rank-5 weapon against a
rank-8 monster deals 3 damage, leaving 17 health. -/
theorem claim4_witness :
    fightState.room[0]? = some (spadeCard 8)
    ∧ ∃ s', fightState.fight_monster 0 true = some s'
        ∧ s'.health = 17
        ∧ s'.weapon = some { card := diamondCard 5, last_monster_slain := some 8 }
        ∧ s'.monsters_on_weapon = [spadeCard 8] := by
  refine ⟨rfl, ?_⟩
  obtain ⟨s', hp, hwpn, hmon, _, _, hsurv⟩ :=
    (claim4_fight fightState 0 (spadeCard 8) rfl).2
      { card := diamondCard 5, last_monster_slain := none } rfl
  refine ⟨s', hp, ?_, hwpn, hmon⟩
  rw [hsurv (by decide)]
  decide

/-- Claim C2: when the third play completes a turn, the turn number rises;
with an empty dungeon and one room card the final-card phase begins (counter
reset, no deal); with dungeon and room both empty the game is won and the
victory entry logs the computed score; otherwise the skip latch clears and
`deal()` refills the room from the dungeon front in order, resetting the
per-room flags. -/
theorem claim2_turn (s : GameState) (h : s.cards_played_this_turn = 3) :
    s.check_turn_complete.turn_number = s.turn_number + 1
    ∧ (s.dungeon = [] → s.room.length = 1 →
        s.check_turn_complete.cards_played_this_turn = 0
        ∧ s.check_turn_complete.room = s.room
        ∧ s.check_turn_complete.dungeon = []
        ∧ s.check_turn_complete.game_over = s.game_over)
    ∧ (s.dungeon = [] → s.room = [] →
        s.check_turn_complete.game_over = true
        ∧ s.check_turn_complete.won = true
        ∧ s.check_turn_complete.log = s.log ++
            ["[Turn " ++ toString (s.turn_number + 1) ++ "] "
              ++ ("VICTORY! Score: " ++ toString (GameState.calculate_score
                  { s with
                    turn_number := s.turn_number + 1
                    game_over := true
                    won := true }))])
    ∧ (¬(s.dungeon = [] ∧ s.room.length = 1) → ¬(s.dungeon = [] ∧ s.room = []) →
        s.check_turn_complete.just_skipped = false
        ∧ s.check_turn_complete.room = s.room ++ s.dungeon.take (4 - s.room.length)
        ∧ s.check_turn_complete.dungeon = s.dungeon.drop (4 - s.room.length)
        ∧ s.check_turn_complete.cards_played_this_turn = 0
        ∧ s.check_turn_complete.potion_used_this_turn = false
        ∧ s.check_turn_complete.last_card_was_potion = none) := by
  have h3 : 3 ≤ s.cards_played_this_turn := by omega
  refine ⟨?_, ?_, ?_, ?_⟩
  · unfold GameState.check_turn_complete
    rw [clamp_selected_eq]
    show s.turn_rollover.turn_number = s.turn_number + 1
    unfold GameState.turn_rollover
    dsimp only
    rw [if_pos h3]
    split
    · rfl
    · split
      · rfl
      · rw [deal_room_eq]
  · intro hd hr
    unfold GameState.check_turn_complete
    rw [clamp_selected_eq]
    have hb : s.turn_rollover = { s with
        turn_number := s.turn_number + 1
        message := "Final card! You must face it."
        cards_played_this_turn := 0
        potion_used_this_turn := false
        selected_index := 0 } := by
      unfold GameState.turn_rollover
      dsimp only
      rw [if_pos h3, if_pos ⟨hd, hr⟩]
    rw [hb]
    exact ⟨rfl, rfl, hd, rfl⟩
  · intro hd hr
    unfold GameState.check_turn_complete
    rw [clamp_selected_eq]
    refine ⟨?_, ?_, ?_⟩ <;>
    · unfold GameState.turn_rollover
      dsimp only
      rw [if_pos h3, if_neg (by simp [hd, hr]), if_pos ⟨hd, hr⟩]
      rfl
  · intro h1 h2
    unfold GameState.check_turn_complete
    rw [clamp_selected_eq]
    have hb : s.turn_rollover =
        GameState.deal_room { s with
          turn_number := s.turn_number + 1
          just_skipped := false } := by
      unfold GameState.turn_rollover
      dsimp only
      rw [if_pos h3, if_neg h1, if_neg h2]
    rw [hb, deal_room_eq]
    exact ⟨rfl, rfl, rfl, rfl, rfl, rfl⟩

/-- Witness for C2: three plays with dungeon and room empty end the game as
a victory on turn 2. -/
theorem claim2_witness :
    rolloverState.cards_played_this_turn = 3
    ∧ rolloverState.check_turn_complete.turn_number = 2
    ∧ rolloverState.check_turn_complete.won = true := by
  have h := claim2_turn rolloverState rfl
  refine ⟨rfl, ?_, (h.2.2.1 rfl rfl).2.1⟩
  rw [h.1]
  rfl

/-- The win branch of the score, as a bonus formula. -/
theorem score_of_won (s : GameState) (hw : s.won = true) :
    s.calculate_score = s.health +
      (if s.health = s.max_health then
        (match s.last_card_was_potion with
         | some p => (p.rank : Int)
         | none => 0)
       else 0) := by
  unfold GameState.calculate_score
  rw [if_pos hw]
  split
  · cases s.last_card_was_potion <;> simp [Card.value]
  · simp

/-- Claim C9: a wasted potion neither sets nor clears the last-heal record,
so an earlier heal survives it; in particular a victory triggered by the
wasted potion still pays the rank of the earlier potion as a bonus at full
health. -/
theorem claim9_wasted_heal (s : GameState) (index : Nat) (card p : Card)
    (hc : s.room[index]? = some card)
    (hu : s.potion_used_this_turn = true)
    (hl : s.last_card_was_potion = some p) :
    ∃ s', s.play_potion index = some s'
      ∧ (s.cards_played_this_turn + 1 < 3 → s'.last_card_was_potion = some p)
      ∧ (3 ≤ s.cards_played_this_turn + 1 → s.dungeon = [] →
          s.room.eraseIdx index = [] →
          s'.game_over = true ∧ s'.won = true ∧ s'.last_card_was_potion = some p
          ∧ (s.health = s.max_health →
              s'.calculate_score = s.max_health + (p.rank : Int))) := by
  have hR : s.play_potion index = some (GameState.check_turn_complete
      { s with
        room := s.room.eraseIdx index
        message := "Second potion - " ++ card.display ++ " wasted!"
        log := s.log ++ ["[Turn " ++ toString s.turn_number ++ "] "
          ++ ("Wasted " ++ card.display ++ " (already used potion)")]
        discard := s.discard ++ [card]
        cards_played_this_turn := s.cards_played_this_turn + 1 }) := by
    unfold GameState.play_potion
    rw [hc]
    dsimp only
    rw [if_pos (by simp [hu])]
    rfl
  refine ⟨_, hR, ?_, ?_⟩
  · intro hlt
    rw [check_lt_fields _ hlt, clamp_selected_eq]
    exact hl
  · intro h3 hd hre
    unfold GameState.check_turn_complete
    rw [clamp_selected_eq]
    unfold GameState.turn_rollover
    dsimp only
    rw [if_pos h3, if_neg (by simp [hd, hre]), if_pos ⟨hd, hre⟩]
    refine ⟨rfl, rfl, hl, ?_⟩
    intro hh
    rw [score_of_won _ rfl]
    simp [GameState.log_msg, hl, hh]

/-- Witness for C9: a wasted rank-3 potion as the third play, after an
earlier rank-4 heal at full health, wins with the spec scenario score 24. -/
theorem claim9_witness :
    ∃ s', wastedPotionState.play_potion 0 = some s'
      ∧ s'.won = true ∧ s'.calculate_score = 24 := by
  obtain ⟨s', hp, _, hvic⟩ :=
    claim9_wasted_heal wastedPotionState 0 (heartCard 3) (heartCard 4) rfl rfl rfl
  obtain ⟨_, hwon, _, hscore⟩ := hvic (by decide) rfl rfl
  refine ⟨s', hp, hwon, ?_⟩
  rw [hscore rfl]
  decide

/-- Counterexample to C3 as stated: in a combat over a rank-4 monster with
a weapon dulled to 3, the weapon precondition fails, yet the combat key is
not rejected - it resolves barehanded, changing health and the discard
pile. -/
theorem claim3_counterexample :
    dulledCombatState.can_use_weapon_on (spadeCard 4) = false
    ∧ (applyCmd dulledCombatState Cmd.combatKeyOne).health = 16
    ∧ dulledCombatState.health = 20
    ∧ (applyCmd dulledCombatState Cmd.combatKeyOne).discard = [spadeCard 4]
    ∧ dulledCombatState.discard = [] := by decide

/-- Claim C3, amended: weapon mode requires a weapon whose `last_slain` is
unset or strictly above the monster rank - `can_use_weapon_on` is exactly
this gate; when it fails the combat key never resolves in weapon mode (no
`last_slain` update, no trophy move): it resolves the fight barehanded
instead, so the state does change and no `IllegalWeaponUse` rejection
exists. -/
theorem claim3_weapon_gate (s : GameState) (ci : Nat) (card : Card)
    (hscreen : s.screen = Screen.combat) (hci : s.combat_card_index = some ci)
    (hc : s.room[ci]? = some card)
    (hlegal : s.can_use_weapon_on card = false) :
    (s.weapon = none ∨ ∃ w last, s.weapon = some w
      ∧ w.last_monster_slain = some last ∧ last ≤ card.rank)
    ∧ applyCmd s Cmd.combatKeyOne =
        { (s.fight_monster ci false).getD s with
          screen := Screen.game, combat_card_index := none }
    ∧ (∀ s', s.fight_monster ci false = some s' →
        s'.weapon = s.weapon ∧ s'.monsters_on_weapon = s.monsters_on_weapon
        ∧ s'.discard = s.discard ++ [card]) := by
  refine ⟨?_, ?_, ?_⟩
  · unfold GameState.can_use_weapon_on at hlegal
    cases hw : s.weapon with
    | none => exact Or.inl rfl
    | some w =>
      rw [hw] at hlegal
      unfold Weapon.can_use_against at hlegal
      dsimp only at hlegal
      cases hlast : w.last_monster_slain with
      | none =>
        rw [hlast] at hlegal
        dsimp only at hlegal
        exact absurd hlegal (by simp)
      | some last =>
        rw [hlast] at hlegal
        dsimp only at hlegal
        refine Or.inr ⟨w, last, rfl, hlast, ?_⟩
        simp only [Card.value, decide_eq_false_iff_not, not_lt] at hlegal
        exact hlegal
  · unfold applyCmd
    rw [hscreen]
    dsimp only
    rw [hci]
    dsimp only
    rw [hc]
    dsimp only
    unfold combatScreenKey
    dsimp only
    rw [if_neg (by simp [hlegal])]
  · intro s' hp
    unfold GameState.fight_monster at hp
    rw [hc] at hp
    dsimp only at hp
    simp only [Bool.false_eq_true, if_false] at hp
    split at hp
    · injection hp with hp
      subst hp
      exact ⟨rfl, rfl, rfl⟩
    · injection hp with hp
      subst hp
      exact ⟨((check_preserves _).2.1).trans rfl,
        ((check_preserves _).2.2.1).trans rfl,
        ((check_preserves _).1).trans rfl⟩

/-- Witness for C3 (amended) at the dulled combat state. -/
theorem claim3_witness :
    applyCmd dulledCombatState Cmd.combatKeyOne =
      { (dulledCombatState.fight_monster 0 false).getD dulledCombatState with
        screen := Screen.game, combat_card_index := none } :=
  (claim3_weapon_gate dulledCombatState 0 (spadeCard 4) rfl rfl rfl rfl).2.1

/-- Counterexample to C10 as stated: skipping with an empty room but a
non-empty dungeon is accepted and the immediate redeal moves a card into
the room, so the zones do not stay unchanged. -/
theorem claim10_counterexample :
    emptyRoomSkipState.room = []
    ∧ emptyRoomSkipState.cards_played_this_turn = 0
    ∧ emptyRoomSkipState.just_skipped = false
    ∧ emptyRoomSkipState.skip_room.room = [spadeCard 2]
    ∧ emptyRoomSkipState.skip_room.dungeon = [] := by decide

/-- Claim C10, amended: with an empty room AND an empty dungeon, a skip
with nothing played and no prior skip is accepted rather than rejected: it
sets `just_skipped`, appends one log entry, and leaves the zones, health
and turn untouched (the per-room flags are re-reset by the deal). -/
theorem claim10_empty_skip (s : GameState)
    (hr : s.room = []) (hd : s.dungeon = [])
    (hp : s.cards_played_this_turn = 0) (hj : s.just_skipped = false) :
    s.skip_room = { s with
      just_skipped := true
      message := "Skipped room"
      potion_used_this_turn := false
      last_card_was_potion := none
      selected_index := 0
      log := s.log ++ ["[Turn " ++ toString s.turn_number ++ "] "
        ++ ("Skipped room (" ++ String.intercalate ", " (List.map Card.display []) ++ ")")] } := by
  unfold GameState.skip_room
  rw [if_neg (by simp [hj]), if_neg (by omega)]
  rw [deal_room_eq]
  rw [hr, hd]
  simp [dealtRoom, GameState.log_msg, hp]

/-- Witness for C10 (amended): the skip is accepted and nothing but the
latch, the message and the log changes. -/
theorem claim10_witness :
    emptyRoomEmptyDungeonState.room = []
    ∧ emptyRoomEmptyDungeonState.skip_room.just_skipped = true
    ∧ emptyRoomEmptyDungeonState.skip_room.dungeon = []
    ∧ emptyRoomEmptyDungeonState.skip_room.discard = [spadeCard 2]
    ∧ emptyRoomEmptyDungeonState.skip_room.log.length = 1 := by
  have h := claim10_empty_skip emptyRoomEmptyDungeonState rfl rfl rfl rfl
  refine ⟨rfl, ?_, ?_, ?_, ?_⟩ <;> rw [h] <;> rfl

/-- Witness for C6: a legal skip on a one-card room with an empty dungeon
returns the same room and arms the skip latch. -/
theorem claim6_witness :
    potionState.just_skipped = false
    ∧ potionState.cards_played_this_turn = 0
    ∧ potionState.skip_room.just_skipped = true
    ∧ potionState.skip_room.room = [heartCard 5]
    ∧ potionState.skip_room.turn_number = 1 := by
  have h := (claim6_skip potionState).2.2 rfl rfl
  refine ⟨rfl, rfl, h.1, ?_, h.2.2.2.1⟩
  rw [h.2.1]
  rfl

/-- Witness for C7: a win at 20/20 health after a rank-4 heal scores 24. -/
theorem claim7_witness : wonState.calculate_score = 24 := by
  rw [(claim7_score wonState).1 rfl]
  decide

end Scoundrel
